import Mathlib

/-!
Verification development for the `@montarist/airalo-api` TypeScript client.

The definitions below are a shallow embedding of the source files
`src/services/airalo.service.ts` and `src/interfaces/error.interface.ts`:
pure functions become Lean functions, the mutable instance state of the
`AiraloService` class becomes explicit state passing, JavaScript `undefined`
becomes `Option`, and JavaScript truthiness (used by the source's `||` and
`?:` operators and `if (!x)` tests) is modelled explicitly.
-/

namespace Airalo

/-! ### JavaScript truthiness

The source relies on JS truthiness in several places
(`additional_info || message`, `error.response?.status || 500`,
`if (!this.accessToken)`, `additionalInfo ? ... : ...`).  An absent value
(`undefined`), the empty string, and the number 0 are falsy. -/

/-- Truthiness of a JS value that is either a string or `undefined`:
`undefined` and the empty string are falsy. -/
def truthyStr : Option String → Bool
  | none => false
  | some s => s != ""

/-- JS `a || b` for string-or-undefined values. -/
def jsOrStr (a b : Option String) : Option String :=
  if truthyStr a then a else b

/-- Truthiness of a JS value that is either a number or `undefined`:
`undefined` and 0 are falsy. -/
def truthyInt : Option Int → Bool
  | none => false
  | some n => n != 0

/-- JS `a || b` where `a` is a number-or-undefined and `b` a number. -/
def jsOrNat (a : Option Nat) (b : Nat) : Nat :=
  match a with
  | none => b
  | some n => if n != 0 then n else b

/-! ### Error interface (`src/interfaces/error.interface.ts`) -/

/-- The numeric values of the TS enum `AiraloErrorCode`
(error.interface.ts lines 1-10).  `Object.values` on a numeric TS enum also
yields the reverse-mapping key strings, but `includes(errorCode)` with a
numeric `errorCode` can only match the numeric values, so the numeric list
is the faithful model for that membership test. -/
def AiraloErrorCodeValues : List Int := [11, 13, 14, 23, 33, 34, 43, 53]

/-- The record `AiraloErrorMessages` (error.interface.ts lines 12-21);
`none` models the `undefined` obtained by indexing with an unknown code. -/
def AiraloErrorMessages (code : Int) : Option String :=
  if code = 11 then some "Insufficient Airalo Credit"
  else if code = 13 then some "The requested operator is currently undergoing maintenance. Please try again later."
  else if code = 14 then some "Invalid checksum"
  else if code = 23 then some "The requested top-up has been disabled by the operator"
  else if code = 33 then some "Insufficient stock of eSIMs remaining"
  else if code = 34 then some "The requested eSIM package is invalid or it is currently out of stock. Please try again later."
  else if code = 43 then some "Bad request"
  else if code = 53 then some "Something unexpected happened. We\x27re working to resolve the issue. Please try again later."
  else none

/-- The fields of an `AiraloError` instance (error.interface.ts lines 31-41).
Note that the class has no `response` property: property access
`error.response` on such an instance yields `undefined`. -/
structure AiraloError where
  code : Int
  additionalInfo : Option String
  statusCode : Nat
  message : String
deriving Repr, DecidableEq

/-- The `AiraloError` constructor (error.interface.ts lines 32-41):
`statusCode` defaults to 422, the message is the canonical message for the
code, extended with `": " + additionalInfo` when `additionalInfo` is truthy.
Interpolating the `undefined` obtained for an unknown code into the template
string would produce the text `"undefined"`. -/
def mkAiraloError (code : Int) (additionalInfo : Option String := none)
    (statusCode : Nat := 422) : AiraloError :=
  let baseMessage := (AiraloErrorMessages code).getD "undefined"
  let fullMessage :=
    if truthyStr additionalInfo then baseMessage ++ ": " ++ additionalInfo.getD ""
    else baseMessage
  { code := code, additionalInfo := additionalInfo, statusCode := statusCode,
    message := fullMessage }

/-- The shape returned by `AiraloError.toResponse`
(error.interface.ts lines 23-29 / 43-50). -/
structure AiraloErrorResponse where
  message : String
  code : Int
  status_code : Nat
  additional_info : Option String
deriving Repr, DecidableEq

/-- `AiraloError.prototype.toResponse` (error.interface.ts lines 43-50). -/
def AiraloError.toResponse (e : AiraloError) : AiraloErrorResponse :=
  { message := e.message, code := e.code, status_code := e.statusCode,
    additional_info := e.additionalInfo }

/-! ### Raw transport failures (axios errors) -/

/-- The body `error.response.data` of a raw axios failure; every field may be
absent. -/
structure RespData where
  code : Option Int
  message : Option String
  additional_info : Option String
deriving Repr, DecidableEq

/-- The `error.response` object of a raw axios failure: present only when the
server answered, and then it always carries a status. -/
structure RawResponse where
  status : Nat
  data : Option RespData
deriving Repr, DecidableEq

/-- A raw axios failure as seen by the response interceptor: an optional
`response` (absent for network errors) and the `Error` message. -/
structure RawFailure where
  response : Option RawResponse
  message : Option String
deriving Repr, DecidableEq

/-- `error.response?.status` on a raw failure. -/
def RawFailure.status? (e : RawFailure) : Option Nat :=
  e.response.map RawResponse.status

/-- `error.response?.data?.code` on a raw failure. -/
def RawFailure.dataCode? (e : RawFailure) : Option Int :=
  e.response.bind (fun r => r.data.bind RespData.code)

/-- `error.response.data.message` on a raw failure. -/
def RawFailure.dataMessage? (e : RawFailure) : Option String :=
  e.response.bind (fun r => r.data.bind RespData.message)

/-- `error.response.data.additional_info` on a raw failure. -/
def RawFailure.dataAdditionalInfo? (e : RawFailure) : Option String :=
  e.response.bind (fun r => r.data.bind RespData.additional_info)

/-- `AiraloService.handleAxiosError` (airalo.service.ts lines 78-89), the
mapping installed as the response-failure interceptor: a 422 failure whose
body carries a truthy `code` belonging to the enum becomes a domain error
with that code and `additional_info || message` as extra info (and the
constructor's default status 422); every other failure becomes the catch-all
code 53 with the raw message and `error.response?.status || 500`. -/
def handleAxiosError (error : RawFailure) : AiraloError :=
  if error.status? = some 422 ∧ truthyInt error.dataCode? then
    let errorCode := error.dataCode?.getD 0
    let additionalInfo := jsOrStr error.dataAdditionalInfo? error.dataMessage?
    if AiraloErrorCodeValues.contains errorCode then
      mkAiraloError errorCode additionalInfo
    else
      mkAiraloError 53 error.message (jsOrNat error.status? 500)
  else
    mkAiraloError 53 error.message (jsOrNat error.status? 500)

/-! ### The service state and the request pipeline
(`src/services/airalo.service.ts`)

The mutable instance state of `AiraloService` is the single field
`accessToken` (the `config` fields and the axios instance are `readonly`).
We carry the configuration in the state record to express that it is never
mutated, and add ghost instrumentation (attempt counters, count of
`authenticate()` invocations, the list of backoff delays awaited) that the
class does not store but that the claims talk about. -/

/-- The `AiraloConfig` passed to the constructor (airalo.service.ts
lines 34-41); all fields are `readonly`. -/
structure Config where
  baseUrl : String
  clientId : String
  clientSecret : String
deriving Repr, DecidableEq

/-- Explicit state of one `AiraloService` instance, plus ghost
instrumentation: `reqAttempts` and `loginAttempts` count the underlying
invocations of the endpoint request thunk and of the `POST /v2/token`
thunk, `authCalls` counts `authenticate()` invocations, and `delays`
records the backoff waits performed, in order. -/
structure PState where
  config : Config
  accessToken : Option String
  reqAttempts : Nat
  loginAttempts : Nat
  authCalls : Nat
  delays : List Nat
deriving Repr, DecidableEq

/-- State right after the constructor ran: no token is held
(airalo.service.ts line 50: `private accessToken?: string`). -/
def initState (cfg : Config) : PState :=
  { config := cfg, accessToken := none, reqAttempts := 0, loginAttempts := 0,
    authCalls := 0, delays := [] }

/-- `private readonly maxRetries = 3` (airalo.service.ts line 51). -/
def maxRetries : Nat := 3

/-- `private readonly retryDelay = 1000` (airalo.service.ts line 52). -/
def retryDelay : Nat := 1000

/-- The body of a successful `POST /v2/token` response
(`AiraloAuthResponse` in the interfaces): `{ data: { access_token,
token_type, expires_in } }`. -/
structure AuthTokenData where
  access_token : String
  token_type : String
  expires_in : Nat
deriving Repr, DecidableEq

/-- Wrapper `{ data: ... }` of the auth response body. -/
structure AiraloAuthResponse where
  data : AuthTokenData
deriving Repr, DecidableEq

/-- The environment of one run: the raw transport outcome (the axios
response payload `response.data`, or the raw failure) of the i-th
invocation of the endpoint request thunk, and of the i-th `POST /v2/token`
call.  `T` is the endpoint payload type. -/
structure World (T : Type) where
  reqOutcomes : Nat → Except RawFailure T
  loginOutcomes : Nat → Except RawFailure AiraloAuthResponse

/-- How thunk rejections reach `handleRequest`'s catch block.  The source's
`handleRequest` is generic in the thunk; what its `error.response?.status`
test observes depends on what the thunk rejects with:

* in the real client every thunk calls `this.axiosInstance`, whose
  response-failure interceptor (installed in the constructor, lines 66-69)
  replaces the raw failure by `handleAxiosError`'s `AiraloError`;
* the repository's unit tests instead reject with raw axios-shaped errors,
  because their mock never routes requests through the interceptor. -/
structure Wiring (ε : Type) where
  icept : RawFailure → ε
  status? : ε → Option Nat

/-- `error.response?.status` evaluated on an `AiraloError` instance: the
class declares no `response` property, so the optional chain yields
`undefined`. -/
def AiraloError.responseStatus (_ : AiraloError) : Option Nat := none

/-- The wiring of the real client: thunk rejections are the mapped
`AiraloError`s produced by the interceptor. -/
def interceptedWiring : Wiring AiraloError :=
  { icept := handleAxiosError, status? := AiraloError.responseStatus }

/-- The wiring exercised by the repository's unit tests: thunk rejections
are raw axios-shaped failures carrying `response.status`. -/
def directWiring : Wiring RawFailure :=
  { icept := id, status? := RawFailure.status? }

/-- One invocation of the endpoint request thunk: take the next raw
outcome, route a failure through the wiring. -/
def runReqAttempt (w : World T) (g : Wiring ε) (st : PState) :
    PState × Except ε T :=
  let st1 := { st with reqAttempts := st.reqAttempts + 1 }
  match w.reqOutcomes st.reqAttempts with
  | .ok d => (st1, .ok d)
  | .error raw => (st1, .error (g.icept raw))

/-- One invocation of the `POST /v2/token` thunk. -/
def runLoginAttempt (w : World T) (g : Wiring ε) (st : PState) :
    PState × Except ε AiraloAuthResponse :=
  let st1 := { st with loginAttempts := st.loginAttempts + 1 }
  match w.loginOutcomes st.loginAttempts with
  | .ok d => (st1, .ok d)
  | .error raw => (st1, .error (g.icept raw))

mutual

/-- `handleRequest` (airalo.service.ts lines 113-131) applied to the login
thunk used by `authenticate()` (line 145-147): on failure, a 401 with
`retryCount < 1` clears the token, re-authenticates and retries once; a 429
with `retryCount < maxRetries` waits `retryDelay * (retryCount + 1)` and
retries; anything else is rethrown.  Because `authenticate()` itself runs
through `handleRequest`, the 401 branch of the login pipeline re-enters
`authenticate()`; `fuel` bounds that re-entrance depth (it is a modelling
artifact: every run examined below finishes with fuel to spare, and on
exhaustion the current error is propagated). -/
def handleRequestLogin (fuel : Nat) (w : World T) (g : Wiring ε)
    (retryCount : Nat) (st : PState) : PState × Except ε AiraloAuthResponse :=
  match runLoginAttempt w g st with
  | (st1, .ok d) => (st1, .ok d)
  | (st1, .error e) =>
    if g.status? e = some 401 ∧ retryCount < 1 then
      match fuel with
      | 0 => (st1, .error e)
      | fuel' + 1 =>
        let st2 := { st1 with accessToken := none }
        match authenticate fuel' w g st2 with
        | (st3, .error ae) => (st3, .error ae)
        | (st3, .ok _) => handleRequestLogin fuel' w g (retryCount + 1) st3
    else if g.status? e = some 429 ∧ retryCount < maxRetries then
      match fuel with
      | 0 => (st1, .error e)
      | fuel' + 1 =>
        handleRequestLogin fuel' w g (retryCount + 1)
          { st1 with delays := st1.delays ++ [retryDelay * (retryCount + 1)] }
    else (st1, .error e)
termination_by (fuel, 0)

/-- `authenticate()` (airalo.service.ts lines 139-150): posts the
credentials form through `handleRequest` and, on success, stores
`response.data.access_token`. -/
def authenticate (fuel : Nat) (w : World T) (g : Wiring ε) (st : PState) :
    PState × Except ε AiraloAuthResponse :=
  let st0 := { st with authCalls := st.authCalls + 1 }
  match handleRequestLogin fuel w g 0 st0 with
  | (st1, .ok auth) =>
    ({ st1 with accessToken := some auth.data.access_token }, .ok auth)
  | (st1, .error e) => (st1, .error e)
termination_by (fuel, 1)

end

/-- `handleRequest` (airalo.service.ts lines 113-131) applied to an
endpoint request thunk.  Identical control flow to the login instance;
`authFuel` only bounds the depth of nested `authenticate()` re-entrance. -/
def handleRequestReq (authFuel : Nat) (w : World T) (g : Wiring ε)
    (retryCount : Nat) (st : PState) : PState × Except ε T :=
  match runReqAttempt w g st with
  | (st1, .ok d) => (st1, .ok d)
  | (st1, .error e) =>
    if h4 : g.status? e = some 401 ∧ retryCount < 1 then
      let st2 := { st1 with accessToken := none }
      match authenticate authFuel w g st2 with
      | (st3, .error ae) => (st3, .error ae)
      | (st3, .ok _) => handleRequestReq authFuel w g (retryCount + 1) st3
    else if h9 : g.status? e = some 429 ∧ retryCount < maxRetries then
      handleRequestReq authFuel w g (retryCount + 1)
        { st1 with delays := st1.delays ++ [retryDelay * (retryCount + 1)] }
    else (st1, .error e)
termination_by maxRetries + 1 - retryCount
decreasing_by
  · have := h4.2; simp [maxRetries]; omega
  · have := h9.2; simp [maxRetries] at *; omega

/-- `getHeaders` (airalo.service.ts lines 96-103): authenticate first when
no truthy token is held, then return the Bearer header built from the
current token. -/
def getHeaders (authFuel : Nat) (w : World T) (g : Wiring ε) (st : PState) :
    PState × Except ε (List (String × String)) :=
  if truthyStr st.accessToken = false then
    match authenticate authFuel w g st with
    | (st1, .error e) => (st1, .error e)
    | (st1, .ok _) =>
      (st1, .ok [("Authorization", "Bearer " ++ st1.accessToken.getD "undefined")])
  else
    (st, .ok [("Authorization", "Bearer " ++ st.accessToken.getD "undefined")])

/-- The shape shared by every endpoint method (e.g. `getBalance`,
airalo.service.ts lines 470-473): obtain headers via `getHeaders`, then run
the prepared thunk through `handleRequest`; the headers are attached to the
issued request, which we record in the success payload. -/
def runEndpoint (authFuel : Nat) (w : World T) (g : Wiring ε) (st : PState) :
    PState × Except ε (List (String × String) × T) :=
  match getHeaders authFuel w g st with
  | (st1, .error e) => (st1, .error e)
  | (st1, .ok hdrs) =>
    match handleRequestReq authFuel w g 0 st1 with
    | (st2, .ok d) => (st2, .ok (hdrs, d))
    | (st2, .error e) => (st2, .error e)

/-! ### The `getOrders` request construction
(airalo.service.ts lines 157-172) -/

/-- `AiraloOrderListParams` (order.interface.ts): all fields optional.  The
source field named `include` is rendered `includeRel` (`include` is a Lean
keyword); `limit` and `page` are numbers, the rest strings. -/
structure AiraloOrderListParams where
  includeRel : Option String
  createdAt : Option String
  orderStatus : Option String
  description : Option String
  limit : Option Nat
  page : Option Nat
deriving Repr, DecidableEq

/-- The `params` object literal passed to `axios.get` by `getOrders`
(airalo.service.ts lines 162-169), in its insertion order; `none` models a
field whose value is `undefined`. -/
def getOrdersQuery (params : AiraloOrderListParams) :
    List (String × Option String) :=
  [("include", params.includeRel),
   ("filter[created_at]", params.createdAt),
   ("filter[order_status]", params.orderStatus),
   ("filter[description]", params.description),
   ("limit", params.limit.map toString),
   ("page", params.page.map toString)]

/-- Axios drops params whose value is `undefined`: the query actually put
on the wire keeps only the present pairs. -/
def wireQuery (q : List (String × Option String)) : List (String × String) :=
  q.filterMap (fun kv => kv.2.map (fun v => (kv.1, v)))

/-- An issued HTTP request: method, path and the query object handed to the
transport. -/
structure Request where
  method : String
  path : String
  query : List (String × Option String)
deriving Repr, DecidableEq

/-- The request issued by `getOrders` (airalo.service.ts lines 159-171):
`GET /v2/orders` with the params object above. -/
def getOrdersRequest (params : AiraloOrderListParams) : Request :=
  { method := "GET", path := "/v2/orders", query := getOrdersQuery params }

/-! ### Concrete sample data used in closed theorems and witnesses -/

/-- A sample construction-time configuration. -/
def cfgSample : Config :=
  { baseUrl := "https://partners-api.airalo.com", clientId := "id",
    clientSecret := "secret" }

/-- Initial state that additionally holds a previously acquired token. -/
def stTok : PState := { initState cfgSample with accessToken := some "tok" }

/-- Raw axios failure: HTTP 401 without a structured body. -/
def raw401 : RawFailure :=
  { response := some { status := 401, data := none },
    message := some "Request failed with status code 401" }

/-- Raw axios failure: HTTP 429 without a structured body. -/
def raw429 : RawFailure :=
  { response := some { status := 429, data := none },
    message := some "Request failed with status code 429" }

/-- Raw axios failure: network error, no response at all. -/
def rawNet : RawFailure := { response := none, message := some "Network error" }

/-- Raw axios failure: HTTP 422 carrying the known body code 43. -/
def raw422Bad : RawFailure :=
  { response := some
      { status := 422,
        data := some { code := some 43, message := some "Invalid credentials",
                       additional_info := none } },
    message := some "Request failed with status code 422" }

/-- Raw axios failure: HTTP 500 with a body that has no `code`. -/
def raw500 : RawFailure :=
  { response := some
      { status := 500,
        data := some { code := none, message := some "Internal server error",
                       additional_info := none } },
    message := some "Request failed with status code 500" }

/-- The login response body of the spec scenario:
`{ data: { access_token: "T", token_type: "Bearer", expires_in: 3600 } }`. -/
def authRespT : AiraloAuthResponse :=
  { data := { access_token := "T", token_type := "Bearer", expires_in := 3600 } }

/-- World where every endpoint attempt fails with a raw 401 and login
succeeds. -/
def w401 : World Nat :=
  { reqOutcomes := fun _ => .error raw401, loginOutcomes := fun _ => .ok authRespT }

/-- World where the first endpoint attempt fails with a raw 401 and every
later attempt succeeds with payload 7; login succeeds. -/
def w401then : World Nat :=
  { reqOutcomes := fun n => if n = 0 then .error raw401 else .ok 7,
    loginOutcomes := fun _ => .ok authRespT }

/-- World where endpoint attempts 0, 1 and 2 fail with a raw 429 and the
4th attempt succeeds with payload 7; login succeeds. -/
def w429mixed : World Nat :=
  { reqOutcomes := fun n => if n < 3 then .error raw429 else .ok 7,
    loginOutcomes := fun _ => .ok authRespT }

/-- World where every endpoint attempt fails with a raw 429. -/
def w429all : World Nat :=
  { reqOutcomes := fun _ => .error raw429, loginOutcomes := fun _ => .ok authRespT }

/-- World where the login call fails with a 422 body (code 43) and endpoint
attempts succeed. -/
def wLoginFail : World Nat :=
  { reqOutcomes := fun _ => .ok 7, loginOutcomes := fun _ => .error raw422Bad }

/-- World where login succeeds with token "T" and endpoint attempts succeed
with payload 7. -/
def wT : World Nat :=
  { reqOutcomes := fun _ => .ok 7, loginOutcomes := fun _ => .ok authRespT }

/-- World over payload `Unit` where every call fails as a network error. -/
def wNet : World Unit :=
  { reqOutcomes := fun _ => .error rawNet, loginOutcomes := fun _ => .error rawNet }

/-- Raw axios failure: HTTP 422, known body code 11, with both
`additional_info` and `message` present. -/
def raw422Info : RawFailure :=
  { response := some
      { status := 422,
        data := some { code := some 11, message := some "m",
                       additional_info := some "extra" } },
    message := some "Request failed with status code 422" }

/-- State of a client that has already stored the token "T" of the spec
scenario. -/
def stT : PState := { initState cfgSample with accessToken := some "T" }

/-- Input family for the known-code branch: a 422 failure whose body
carries `code`, `message` and `additional_info`. -/
def raw422WithCode (c : Int) (msgField ai topMsg : Option String) : RawFailure :=
  { response := some
      { status := 422,
        data := some { code := some c, message := msgField,
                       additional_info := ai } },
    message := topMsg }

/-- Scope of the catch-all clause of the error mapping, as the claim words
it: no response at all, or a status other than 422, or a 422 whose body
code is missing or not one of the enum values. -/
def catchAllScope (raw : RawFailure) : Prop :=
  match raw.response with
  | none => True
  | some r =>
    r.status ≠ 422 ∨
      (match r.data with
       | none => True
       | some dd =>
         match dd.code with
         | none => True
         | some c => c ∉ AiraloErrorCodeValues)

/-- The claim speaks of the failure's HTTP status; 0 is not an HTTP status,
so a present status is a genuine (nonzero) one. -/
def presentStatusIsHttp (raw : RawFailure) : Prop :=
  match raw.response with
  | none => True
  | some r => r.status ≠ 0

/-! ## Theorems -/

/-- C1.  The claim says a first-attempt HTTP 401 clears the token, triggers
exactly one `authenticate()` and one retry.  In the real client it does
not: the response interceptor replaces the rejection by an `AiraloError`,
which has no `response` property, so `error.response?.status` is
`undefined` inside `handleRequest` and the 401 branch never fires.  With
every underlying attempt answering 401, the pipeline performs exactly one
attempt, keeps the stored token, never calls `authenticate()`, and
propagates the mapped catch-all error at once. -/
theorem handleRequest_first401_no_reauth_no_retry :
    handleRequestReq 5 w401 interceptedWiring 0 stTok =
      ({ stTok with reqAttempts := 1 },
       Except.error (mkAiraloError 53 (some "Request failed with status code 401") 401)) := by
  simp [handleRequestReq, runReqAttempt, w401, interceptedWiring,
        AiraloError.responseStatus, handleAxiosError, raw401, RawFailure.status?,
        RawFailure.dataCode?, truthyInt, jsOrNat, stTok, initState]

/-- Supporting evidence for C1's intent: under the wiring the repository's
unit tests exercise (raw axios errors reaching `handleRequest` directly),
a first-attempt 401 does clear the token, invoke `authenticate()` exactly
once, and retry the thunk exactly once, returning the retried payload. -/
theorem direct_first401_reauth_retry :
    handleRequestReq 5 w401then directWiring 0 stTok =
      ({ stTok with accessToken := some "T", reqAttempts := 2, loginAttempts := 1, authCalls := 1 },
       Except.ok 7) := by
  set_option maxRecDepth 4000 in
  simp [handleRequestReq, authenticate, handleRequestLogin, runReqAttempt,
        runLoginAttempt, w401then, directWiring, raw401, RawFailure.status?,
        authRespT, stTok, initState]

/-- Supporting evidence for C1's intent, second half: under the tests'
wiring, when the retried attempt also answers 401, the second 401 is not
retried again and propagates, with exactly one re-authentication in
total. -/
theorem direct_second401_propagates :
    handleRequestReq 5 w401 directWiring 0 stTok =
      ({ stTok with accessToken := some "T", reqAttempts := 2, loginAttempts := 1, authCalls := 1 },
       Except.error raw401) := by
  set_option maxRecDepth 4000 in
  simp [handleRequestReq, authenticate, handleRequestLogin, runReqAttempt,
        runLoginAttempt, w401, directWiring, raw401, RawFailure.status?,
        authRespT, stTok, initState]

/-- C2.  The claim says three consecutive 429 responses followed by a
success on the 4th underlying attempt yield success after backoffs of
1000, 2000 and 3000.  In the real client the interceptor's `AiraloError`
carries no `response` property, so the 429 branch of `handleRequest` never
fires: even with a success available on the 4th attempt, the pipeline
performs exactly one attempt, waits for no delay, and propagates the
mapped catch-all error at once. -/
theorem handleRequest_429_no_retry :
    handleRequestReq 5 w429mixed interceptedWiring 0 stTok =
      ({ stTok with reqAttempts := 1 },
       Except.error (mkAiraloError 53 (some "Request failed with status code 429") 429)) := by
  simp [handleRequestReq, runReqAttempt, w429mixed, interceptedWiring,
        AiraloError.responseStatus, handleAxiosError, raw429, RawFailure.status?,
        RawFailure.dataCode?, truthyInt, jsOrNat, stTok, initState]

/-- Supporting evidence for C2's intent: under the wiring the repository's
unit tests exercise, three raw 429 failures followed by a success on the
4th attempt give success, after the strictly increasing delays 1000, 2000
and 3000. -/
theorem direct_429_retries_then_success :
    handleRequestReq 5 w429mixed directWiring 0 stTok =
      ({ stTok with reqAttempts := 4, delays := [1000, 2000, 3000] },
       Except.ok 7) := by
  set_option maxRecDepth 8000 in
  simp [handleRequestReq, runReqAttempt, w429mixed, directWiring, raw429,
        RawFailure.status?, stTok, initState, maxRetries, retryDelay]

/-- Supporting evidence for C2's intent, boundary half: under the tests'
wiring, a 4th consecutive raw 429 propagates after the three backed-off
retries are exhausted. -/
theorem direct_429_exhausted_propagates :
    handleRequestReq 5 w429all directWiring 0 stTok =
      ({ stTok with reqAttempts := 4, delays := [1000, 2000, 3000] },
       Except.error raw429) := by
  set_option maxRecDepth 8000 in
  simp [handleRequestReq, runReqAttempt, w429all, directWiring, raw429,
        RawFailure.status?, stTok, initState, maxRetries, retryDelay]

/-- C3.  A structured 422 failure whose body code is one of
11, 13, 14, 23, 33, 34, 43 maps to a domain error carrying exactly that
code (with the constructor's default status 422); its extra info is the
body's `additional_info` whenever that field actually carries information
(is present and non-empty — the source's `||` treats the empty string like
an absent field), and the body's `message` otherwise. -/
theorem handleAxiosError_known_code (c : Int)
    (hc : c ∈ ([11, 13, 14, 23, 33, 34, 43] : List Int))
    (msgField ai topMsg : Option String) :
    (handleAxiosError (raw422WithCode c msgField ai topMsg)).code = c ∧
    (handleAxiosError (raw422WithCode c msgField ai topMsg)).statusCode = 422 ∧
    (∀ s, ai = some s → s ≠ "" →
      (handleAxiosError (raw422WithCode c msgField ai topMsg)).additionalInfo = some s) ∧
    ((ai = none ∨ ai = some "") →
      (handleAxiosError (raw422WithCode c msgField ai topMsg)).additionalInfo = msgField) := by
  have hc0 : c ≠ 0 := by fin_cases hc <;> decide
  have hmem : c ∈ AiraloErrorCodeValues := by fin_cases hc <;> decide
  have heval : handleAxiosError (raw422WithCode c msgField ai topMsg) =
      mkAiraloError c (jsOrStr ai msgField) := by
    simp [handleAxiosError, raw422WithCode, RawFailure.status?,
          RawFailure.dataCode?, RawFailure.dataAdditionalInfo?,
          RawFailure.dataMessage?, truthyInt, hc0, hmem]
  rw [heval]
  refine ⟨by simp [mkAiraloError], by simp [mkAiraloError], ?_, ?_⟩
  · intro s hs hne'
    simp [mkAiraloError, jsOrStr, truthyStr, hs, hne']
  · rintro (h | h) <;> simp [mkAiraloError, jsOrStr, truthyStr, h]

/-- Witness for C3 at code 11 with both body fields present. -/
theorem handleAxiosError_known_code_witness :
    (handleAxiosError raw422Info).code = 11 ∧
    (handleAxiosError raw422Info).additionalInfo = some "extra" :=
  ⟨(handleAxiosError_known_code 11 (by decide) (some "m") (some "extra")
      (some "Request failed with status code 422")).1,
   (handleAxiosError_known_code 11 (by decide) (some "m") (some "extra")
      (some "Request failed with status code 422")).2.2.1 "extra" rfl (by decide)⟩

/-- C4.  Every raw failure outside the known-code 422 case — no response,
a status other than 422, or a 422 whose body code is missing or
unrecognized — maps to the catch-all domain error: code 53, the raw
failure's own message as extra info, and the failure's HTTP status when one
is present, else the default 500. -/
theorem handleAxiosError_catch_all (raw : RawFailure)
    (hscope : catchAllScope raw) (hhttp : presentStatusIsHttp raw) :
    (handleAxiosError raw).code = 53 ∧
    (handleAxiosError raw).additionalInfo = raw.message ∧
    (handleAxiosError raw).statusCode =
      (match raw.response with
       | some r => r.status
       | none => 500) := by
  obtain ⟨resp, topMsg⟩ := raw
  cases resp with
  | none =>
    simp [handleAxiosError, RawFailure.status?, RawFailure.dataCode?,
          truthyInt, jsOrNat, mkAiraloError]
  | some r =>
    obtain ⟨st, dd⟩ := r
    have hst : st ≠ 0 := hhttp
    by_cases h422 : st = 422
    · subst h422
      rcases hscope with h | hunrec
      · exact absurd rfl h
      · cases dd with
        | none =>
          simp [handleAxiosError, RawFailure.status?, RawFailure.dataCode?,
                truthyInt, jsOrNat, mkAiraloError]
        | some d =>
          obtain ⟨cO, dm, dai⟩ := d
          cases cO with
          | none =>
            simp [handleAxiosError, RawFailure.status?, RawFailure.dataCode?,
                  truthyInt, jsOrNat, mkAiraloError]
          | some c =>
            have hnotin : c ∉ AiraloErrorCodeValues := hunrec
            by_cases hc0 : c = 0
            · subst hc0
              simp [handleAxiosError, RawFailure.status?, RawFailure.dataCode?,
                    truthyInt, jsOrNat, mkAiraloError]
            · simp [handleAxiosError, RawFailure.status?, RawFailure.dataCode?,
                    RawFailure.dataAdditionalInfo?, RawFailure.dataMessage?,
                    truthyInt, hc0, hnotin, jsOrNat, mkAiraloError]
    · simp [handleAxiosError, RawFailure.status?, RawFailure.dataCode?, h422,
            truthyInt, jsOrNat, hst, mkAiraloError]

/-- Witness for C4 at a 500 failure whose body has no code. -/
theorem handleAxiosError_catch_all_witness :
    (handleAxiosError raw500).code = 53 ∧
    (handleAxiosError raw500).additionalInfo =
      some "Request failed with status code 500" ∧
    (handleAxiosError raw500).statusCode = 500 :=
  handleAxiosError_catch_all raw500
    (Or.inl (show (500 : Nat) ≠ 422 by decide))
    (show (500 : Nat) ≠ 0 by decide)


/-! ### Behaviour of the composed pipeline

In the real client the interceptor's `AiraloError` never carries a
`response` property, so inside `handleRequest` both retry conditions are
false and each call performs exactly one underlying attempt.  The
following lemmas record that once and are shared by the claims below. -/

/-- The login pipeline of the composed client: one attempt, failures
mapped, never retried. -/
theorem handleRequestLogin_intercepted {T : Type} (fuel : Nat) (w : World T)
    (retryCount : Nat) (st : PState) :
    handleRequestLogin fuel w interceptedWiring retryCount st =
      (match w.loginOutcomes st.loginAttempts with
       | .ok d => ({ st with loginAttempts := st.loginAttempts + 1 }, .ok d)
       | .error raw =>
         ({ st with loginAttempts := st.loginAttempts + 1 },
          .error (handleAxiosError raw))) := by
  cases h : w.loginOutcomes st.loginAttempts <;>
    simp [handleRequestLogin, runLoginAttempt, interceptedWiring,
          AiraloError.responseStatus, h]

/-- `authenticate()` of the composed client: one login attempt; on success
the token is stored, on failure the mapped error propagates. -/
theorem authenticate_intercepted {T : Type} (fuel : Nat) (w : World T)
    (st : PState) :
    authenticate fuel w interceptedWiring st =
      (match w.loginOutcomes st.loginAttempts with
       | .ok auth =>
         ({ st with authCalls := st.authCalls + 1, loginAttempts := st.loginAttempts + 1, accessToken := some auth.data.access_token },
          .ok auth)
       | .error raw =>
         ({ st with authCalls := st.authCalls + 1, loginAttempts := st.loginAttempts + 1 },
          .error (handleAxiosError raw))) := by
  cases h : w.loginOutcomes st.loginAttempts <;>
    simp [authenticate, handleRequestLogin_intercepted, h]

/-- The endpoint-request pipeline of the composed client: one attempt,
failures mapped, never retried, no re-authentication, no delay. -/
theorem handleRequestReq_intercepted {T : Type} (fuel : Nat) (w : World T)
    (retryCount : Nat) (st : PState) :
    handleRequestReq fuel w interceptedWiring retryCount st =
      (match w.reqOutcomes st.reqAttempts with
       | .ok d => ({ st with reqAttempts := st.reqAttempts + 1 }, .ok d)
       | .error raw =>
         ({ st with reqAttempts := st.reqAttempts + 1 },
          .error (handleAxiosError raw))) := by
  cases h : w.reqOutcomes st.reqAttempts <;>
    simp [handleRequestReq, runReqAttempt, interceptedWiring,
          AiraloError.responseStatus, h]

/-- `getHeaders` of the composed client, fully evaluated. -/
theorem getHeaders_intercepted {T : Type} (fuel : Nat) (w : World T)
    (st : PState) :
    getHeaders fuel w interceptedWiring st =
      (if truthyStr st.accessToken = false then
        match w.loginOutcomes st.loginAttempts with
        | .ok auth =>
          ({ st with authCalls := st.authCalls + 1, loginAttempts := st.loginAttempts + 1, accessToken := some auth.data.access_token },
           .ok [("Authorization", "Bearer " ++ auth.data.access_token)])
        | .error raw =>
          ({ st with authCalls := st.authCalls + 1, loginAttempts := st.loginAttempts + 1 },
           .error (handleAxiosError raw))
      else
        (st, .ok [("Authorization", "Bearer " ++ st.accessToken.getD "undefined")])) := by
  by_cases ht : truthyStr st.accessToken = false
  · cases h : w.loginOutcomes st.loginAttempts <;>
      simp [getHeaders, authenticate_intercepted, h, ht]
  · simp [getHeaders, ht]

/-- C6.  When the login call fails, `authenticate()` surfaces the mapped
domain error and the pipeline does not retry the authentication call
itself: exactly one underlying login attempt happens, no backoff delay is
recorded, and no 401-triggered re-entry occurs. -/
theorem authenticate_failure_not_retried {T : Type} (fuel : Nat)
    (w : World T) (st : PState) (raw : RawFailure)
    (h : w.loginOutcomes st.loginAttempts = Except.error raw) :
    authenticate fuel w interceptedWiring st =
      ({ st with authCalls := st.authCalls + 1, loginAttempts := st.loginAttempts + 1 },
       Except.error (handleAxiosError raw)) := by
  rw [authenticate_intercepted, h]

/-- Witness for C6: a failing login with a 422 body surfaces the mapped
error after exactly one attempt. -/
theorem authenticate_failure_not_retried_witness :
    authenticate 3 wLoginFail interceptedWiring (initState cfgSample) =
      ({ initState cfgSample with authCalls := 1, loginAttempts := 1 },
       Except.error (handleAxiosError raw422Bad)) :=
  authenticate_failure_not_retried 3 wLoginFail (initState cfgSample)
    raw422Bad rfl

/-- C5.  Every failure surfaced by a public operation — any endpoint method
(headers acquisition followed by the request pipeline) or `authenticate()`
— is a value of the single domain type `AiraloError`, and is exactly the
image of some raw transport failure under the one mapping function
`handleAxiosError` installed as the transport interceptor; no other
exception shape escapes the pipeline. -/
theorem surfaced_errors_are_mapped {T : Type} (fuel : Nat) (w : World T)
    (st : PState) (e : AiraloError)
    (h : (runEndpoint fuel w interceptedWiring st).2 = Except.error e ∨
         (authenticate fuel w interceptedWiring st).2 = Except.error e) :
    ∃ raw : RawFailure, e = handleAxiosError raw := by
  rcases h with h | h
  · rw [runEndpoint] at h
    rw [getHeaders_intercepted] at h
    by_cases ht : truthyStr st.accessToken = false
    · rw [if_pos ht] at h
      cases hlo : w.loginOutcomes st.loginAttempts with
      | error raw =>
        rw [hlo] at h
        simp only at h
        exact ⟨raw, by injection h with h2; exact h2.symm⟩
      | ok auth =>
        rw [hlo] at h
        simp only at h
        rw [handleRequestReq_intercepted] at h
        cases hre : w.reqOutcomes ({ st with authCalls := st.authCalls + 1, loginAttempts := st.loginAttempts + 1, accessToken := some auth.data.access_token } : PState).reqAttempts with
        | error raw =>
          rw [hre] at h; simp only at h
          exact ⟨raw, by injection h with h2; exact h2.symm⟩
        | ok d => rw [hre] at h; simp only at h; exact (Except.noConfusion h)
    · rw [if_neg ht] at h
      simp only at h
      rw [handleRequestReq_intercepted] at h
      cases hre : w.reqOutcomes st.reqAttempts with
      | error raw =>
        rw [hre] at h; simp only at h
        exact ⟨raw, by injection h with h2; exact h2.symm⟩
      | ok d => rw [hre] at h; simp only at h; exact (Except.noConfusion h)
  · rw [authenticate_intercepted] at h
    cases hlo : w.loginOutcomes st.loginAttempts with
    | error raw =>
      rw [hlo] at h; simp only at h
      exact ⟨raw, by injection h with h2; exact h2.symm⟩
    | ok auth => rw [hlo] at h; simp only at h; exact (Except.noConfusion h)

/-- Witness for C5: the error surfaced for a network failure is the mapped
image of that raw failure. -/
theorem surfaced_errors_are_mapped_witness :
    ∃ raw : RawFailure, handleAxiosError rawNet = handleAxiosError raw :=
  surfaced_errors_are_mapped 3 wNet (initState cfgSample)
    (handleAxiosError rawNet)
    (Or.inr (by rw [authenticate_intercepted]; rfl))

/-- C7.  Authentication is implicit and lazy.  First conjunct: when no
truthy token is held, `getHeaders` performs `authenticate()` before
returning, and the returned header map carries the Bearer value built from
the token the login response stored.  Second conjunct: once a non-empty
token `t` is stored, an authenticated call triggers no authentication and
attaches the header `Authorization: Bearer t` to the issued request. -/
theorem bearer_header_lazy_auth :
    (∀ (T : Type) (fuel : Nat) (w : World T) (st : PState)
        (auth : AiraloAuthResponse),
      truthyStr st.accessToken = false →
      w.loginOutcomes st.loginAttempts = Except.ok auth →
      getHeaders fuel w interceptedWiring st =
        ({ st with authCalls := st.authCalls + 1, loginAttempts := st.loginAttempts + 1, accessToken := some auth.data.access_token },
         Except.ok [("Authorization", "Bearer " ++ auth.data.access_token)])) ∧
    (∀ (T : Type) (fuel : Nat) (w : World T) (st : PState) (t : String) (d : T),
      st.accessToken = some t → t ≠ "" →
      w.reqOutcomes st.reqAttempts = Except.ok d →
      runEndpoint fuel w interceptedWiring st =
        ({ st with reqAttempts := st.reqAttempts + 1 },
         Except.ok ([("Authorization", "Bearer " ++ t)], d))) := by
  constructor
  · intro T fuel w st auth ht hlo
    rw [getHeaders_intercepted, if_pos ht, hlo]
  · intro T fuel w st t d htok hne hre
    have ht : ¬ truthyStr st.accessToken = false := by
      simp [truthyStr, htok, hne]
    rw [runEndpoint, getHeaders_intercepted, if_neg ht]
    simp only
    rw [handleRequestReq_intercepted, hre]
    simp [htok]

/-- Witness for C7 at the spec scenario: login stores token "T"; a
tokenless `getHeaders` authenticates and returns `Bearer T`, and a call
made while "T" is held attaches `Authorization: Bearer T`. -/
theorem bearer_header_lazy_auth_witness :
    getHeaders 3 wT interceptedWiring (initState cfgSample) =
      ({ initState cfgSample with authCalls := 1, loginAttempts := 1, accessToken := some "T" },
       Except.ok [("Authorization", "Bearer T")]) ∧
    runEndpoint 3 wT interceptedWiring stT =
      ({ stT with reqAttempts := 1 },
       Except.ok ([("Authorization", "Bearer T")], 7)) := by
  constructor
  · have h := bearer_header_lazy_auth.1 Nat 3 wT (initState cfgSample)
      authRespT rfl rfl
    simpa [authRespT] using h
  · have h := bearer_header_lazy_auth.2 Nat 3 wT stT "T" 7 rfl (by decide) rfl
    simpa using h

/-- C9.  The access token is the only instance state that changes after
construction: it starts absent, the construction-time configuration is
preserved by every public operation, and across any such operation the
token is either left unchanged or set to the access token of a successful
login — in these composed runs it is never cleared (the clearing statement
sits in the unreachable 401 branch), so in particular nothing but a
successful `authenticate()` ever writes it. -/
theorem token_only_mutable_state :
    (∀ cfg : Config, (initState cfg).accessToken = none) ∧
    (∀ (T : Type) (fuel : Nat) (w : World T) (st : PState),
      (runEndpoint fuel w interceptedWiring st).1.config = st.config ∧
      (authenticate fuel w interceptedWiring st).1.config = st.config ∧
      (getHeaders fuel w interceptedWiring st).1.config = st.config) ∧
    (∀ (T : Type) (fuel : Nat) (w : World T) (st : PState),
      ((runEndpoint fuel w interceptedWiring st).1.accessToken = st.accessToken ∨
        ∃ auth, w.loginOutcomes st.loginAttempts = Except.ok auth ∧
          (runEndpoint fuel w interceptedWiring st).1.accessToken = some auth.data.access_token) ∧
      ((authenticate fuel w interceptedWiring st).1.accessToken = st.accessToken ∨
        ∃ auth, w.loginOutcomes st.loginAttempts = Except.ok auth ∧
          (authenticate fuel w interceptedWiring st).1.accessToken = some auth.data.access_token)) := by
  refine ⟨fun cfg => rfl, ?_, ?_⟩
  · intro T fuel w st
    refine ⟨?_, ?_, ?_⟩
    · rw [runEndpoint, getHeaders_intercepted]
      by_cases ht : truthyStr st.accessToken = false
      · rw [if_pos ht]
        cases hlo : w.loginOutcomes st.loginAttempts with
        | error raw => rfl
        | ok auth =>
          simp only
          rw [handleRequestReq_intercepted]
          cases hre : w.reqOutcomes ({ st with authCalls := st.authCalls + 1, loginAttempts := st.loginAttempts + 1, accessToken := some auth.data.access_token } : PState).reqAttempts with
          | error raw => rfl
          | ok d => rfl
      · rw [if_neg ht]
        simp only
        rw [handleRequestReq_intercepted]
        cases hre : w.reqOutcomes st.reqAttempts with
        | error raw => rfl
        | ok d => rfl
    · rw [authenticate_intercepted]
      cases hlo : w.loginOutcomes st.loginAttempts with
      | error raw => rfl
      | ok auth => rfl
    · rw [getHeaders_intercepted]
      by_cases ht : truthyStr st.accessToken = false
      · rw [if_pos ht]
        cases hlo : w.loginOutcomes st.loginAttempts with
        | error raw => rfl
        | ok auth => rfl
      · rw [if_neg ht]
  · intro T fuel w st
    constructor
    · rw [runEndpoint, getHeaders_intercepted]
      by_cases ht : truthyStr st.accessToken = false
      · rw [if_pos ht]
        cases hlo : w.loginOutcomes st.loginAttempts with
        | error raw => left; rfl
        | ok auth =>
          right
          refine ⟨auth, rfl, ?_⟩
          simp only
          rw [handleRequestReq_intercepted]
          cases hre : w.reqOutcomes ({ st with authCalls := st.authCalls + 1, loginAttempts := st.loginAttempts + 1, accessToken := some auth.data.access_token } : PState).reqAttempts with
          | error raw => rfl
          | ok d => rfl
      · rw [if_neg ht]
        left
        simp only
        rw [handleRequestReq_intercepted]
        cases hre : w.reqOutcomes st.reqAttempts with
        | error raw => rfl
        | ok d => rfl
    · rw [authenticate_intercepted]
      cases hlo : w.loginOutcomes st.loginAttempts with
      | error raw => left; rfl
      | ok auth => right; exact ⟨auth, rfl, rfl⟩

/-- The wire query of a params list peels off one pair at a time: a present
value contributes its pair, an absent one contributes nothing. -/
theorem wireQuery_cons (k : String) (v : Option String)
    (t : List (String × Option String)) :
    wireQuery ((k, v) :: t) =
      (v.map (fun s => (k, s))).toList ++ wireQuery t := by
  cases v <;> simp [wireQuery]

/-- C8.  `getOrders` issues `GET /v2/orders`, and the query put on the wire
maps the caller's fields to exactly the wire parameter names `include`,
`filter[created_at]`, `filter[order_status]`, `filter[description]`,
`limit` and `page`, dropping absent fields; in particular the call with
`limit` 10, `page` 1 and order status "completed" puts exactly the pairs
`limit=10`, `page=1` and `filter[order_status]=completed` on the wire. -/
theorem getOrders_request_mapping :
    (∀ params : AiraloOrderListParams,
      (getOrdersRequest params).method = "GET" ∧
      (getOrdersRequest params).path = "/v2/orders" ∧
      wireQuery (getOrdersRequest params).query =
        (params.includeRel.map (fun v => ("include", v))).toList ++
        (params.createdAt.map (fun v => ("filter[created_at]", v))).toList ++
        (params.orderStatus.map (fun v => ("filter[order_status]", v))).toList ++
        (params.description.map (fun v => ("filter[description]", v))).toList ++
        ((params.limit.map toString).map (fun v => ("limit", v))).toList ++
        ((params.page.map toString).map (fun v => ("page", v))).toList) ∧
    (wireQuery (getOrdersRequest
        { includeRel := none, createdAt := none, orderStatus := some "completed",
          description := none, limit := some 10, page := some 1 }).query).Perm
      [("limit", "10"), ("page", "1"), ("filter[order_status]", "completed")] := by
  constructor
  · intro params
    refine ⟨rfl, rfl, ?_⟩
    simp only [getOrdersRequest, getOrdersQuery, wireQuery_cons]
    simp [wireQuery, Option.map_map]
  · decide

/-- C10.  The `AiraloError` constructor and `toResponse`: for a code with
canonical text `base`, the message is `base` when no extra info is carried
(absent or empty — the constructor's truthiness test treats the empty
string like an absent argument), and `base ++ ": " ++ s` for non-empty
info `s`; the status defaults to 422 when not supplied; and `toResponse`
returns exactly the record of message, code, status code and extra
info. -/
theorem airaloError_ctor_toResponse (c : Int) (base : String)
    (hbase : AiraloErrorMessages c = some base) :
    (∀ ai : Option String, (mkAiraloError c ai).statusCode = 422) ∧
    (∀ stc : Nat, (mkAiraloError c none stc).message = base) ∧
    (∀ (s : String) (stc : Nat), s ≠ "" →
      (mkAiraloError c (some s) stc).message = base ++ ": " ++ s) ∧
    (∀ stc : Nat, (mkAiraloError c (some "") stc).message = base) ∧
    (∀ (ai : Option String) (stc : Nat),
      (mkAiraloError c ai stc).toResponse =
        { message := (mkAiraloError c ai stc).message, code := c,
          status_code := stc, additional_info := ai }) := by
  refine ⟨fun ai => rfl, ?_, ?_, ?_, ?_⟩
  · intro stc
    simp [mkAiraloError, truthyStr, hbase]
  · intro s stc hs
    simp [mkAiraloError, truthyStr, hs, hbase]
  · intro stc
    simp [mkAiraloError, truthyStr, hbase]
  · intro ai stc
    simp [AiraloError.toResponse, mkAiraloError]

/-- Witness for C10 at code 23 with extra info "x" and an explicit
status. -/
theorem airaloError_ctor_toResponse_witness :
    (mkAiraloError 23 (some "x")).statusCode = 422 ∧
    (mkAiraloError 23 (some "x") 400).message =
      "The requested top-up has been disabled by the operator" ++ ": " ++ "x" ∧
    (mkAiraloError 23 (some "x") 400).toResponse =
      { message := (mkAiraloError 23 (some "x") 400).message, code := 23,
        status_code := 400, additional_info := some "x" } :=
  ⟨(airaloError_ctor_toResponse 23
      "The requested top-up has been disabled by the operator" rfl).1 (some "x"),
   (airaloError_ctor_toResponse 23
      "The requested top-up has been disabled by the operator" rfl).2.2.1 "x" 400
      (by decide),
   (airaloError_ctor_toResponse 23
      "The requested top-up has been disabled by the operator" rfl).2.2.2.2
      (some "x") 400⟩

end Airalo
